import Mathlib

/-!
Verification of the per-connection LDAP session engine of
`src/infra/ldap_server.rs` (lldap).

The Rust module defines `LdapHandler` (per-connection session state: the
currently bound `dn` plus an abstract backend), the dispatch methods
`do_bind`, `do_search`, `do_whoami`, the total dispatcher
`handle_ldap_message`, the per-message connection-loop body
`handle_incoming_message`, and the connection loop wiring in
`build_ldap_server`.

The embedding below is a direct translation: `&mut self` methods become
state-passing functions, `Result` becomes `Except`, the external
`FramedWrite` sink is modelled at its interface boundary by an explicit
state (the ordered list of messages handed to `send`, and a flush counter)
together with an oracle deciding which send/flush attempts fail.
-/

namespace LldapServer

/-- Rust `crate::domain::handler::BindRequest { name, password }`, as built at the
call site in `do_bind`. -/
structure BindRequest where
  name : String
  password : String
deriving DecidableEq, Repr

/-- Rust `ldap3_server::simple::SimpleBindRequest`: the fields read by this module
(`dn`, `pw`) plus the message-correlation id used by the `gen_*` helpers. -/
structure SimpleBindRequest where
  msgid : Nat
  dn : String
  pw : String
deriving DecidableEq, Repr

/-- Rust `ldap3_server::simple::SearchRequest`: `do_search` reads none of its
request content; base and filter are carried opaquely. -/
structure SearchRequest where
  msgid : Nat
  base : String
  filter : String
deriving DecidableEq, Repr

/-- Rust `ldap3_server::simple::WhoamiRequest`. -/
structure WhoamiRequest where
  msgid : Nat
deriving DecidableEq, Repr

/-- Rust `ldap3_server::simple::UnbindRequest` (content unused by the module). -/
structure UnbindRequest where
  msgid : Nat
deriving DecidableEq, Repr

/-- Rust `ldap3_server::simple::LdapPartialAttribute`. -/
structure LdapPartialAttribute where
  atype : String
  vals : List String
deriving DecidableEq, Repr

/-- Rust `ldap3_server::simple::LdapSearchResultEntry`. -/
structure LdapSearchResultEntry where
  dn : String
  attributes : List LdapPartialAttribute
deriving DecidableEq, Repr

/-- The LDAP result codes this module mentions: success (`gen_success`),
invalid credentials (`gen_invalid_cred`), and `LdapResultCode::Other`
(disconnection notice). -/
inductive LdapResultCode where
  | success
  | invalidCredentials
  | other
deriving DecidableEq, Repr

/-- Outgoing `LdapMsg` values, one constructor per `gen_*` helper the module
invokes on the ldap3_server types. -/
inductive LdapMsg where
  | bindResponse (msgid : Nat) (code : LdapResultCode)
  | searchResultEntry (msgid : Nat) (entry : LdapSearchResultEntry)
  | searchResultDone (msgid : Nat) (code : LdapResultCode)
  | whoamiResponse (msgid : Nat) (value : String)
  | disconnectionNotice (code : LdapResultCode) (message : String)
deriving DecidableEq, Repr

/-- Rust `SimpleBindRequest::gen_success`: one successful bind response correlated
to this request. -/
def SimpleBindRequest.gen_success (sbr : SimpleBindRequest) : LdapMsg :=
  .bindResponse sbr.msgid .success

/-- Rust `SimpleBindRequest::gen_invalid_cred`: one invalid-credentials bind
response correlated to this request. -/
def SimpleBindRequest.gen_invalid_cred (sbr : SimpleBindRequest) : LdapMsg :=
  .bindResponse sbr.msgid .invalidCredentials

/-- Rust `SearchRequest::gen_result_entry`. -/
def SearchRequest.gen_result_entry (lsr : SearchRequest)
    (entry : LdapSearchResultEntry) : LdapMsg :=
  .searchResultEntry lsr.msgid entry

/-- Rust `SearchRequest::gen_success`: the terminal search-done response. -/
def SearchRequest.gen_success (lsr : SearchRequest) : LdapMsg :=
  .searchResultDone lsr.msgid .success

/-- Rust `WhoamiRequest::gen_success(msg)`. -/
def WhoamiRequest.gen_success (wr : WhoamiRequest) (msg : String) : LdapMsg :=
  .whoamiResponse wr.msgid msg

/-- Rust `DisconnectionNotice::gen(code, msg)`. -/
def DisconnectionNotice.gen (code : LdapResultCode) (msg : String) : LdapMsg :=
  .disconnectionNotice code msg

/-- Rust `ldap3_server::simple::ServerOps`: the closed set of decoded operations
dispatched by `handle_ldap_message`. -/
inductive ServerOps where
  | SimpleBind (sbr : SimpleBindRequest)
  | Search (sr : SearchRequest)
  | Unbind (ur : UnbindRequest)
  | Whoami (wr : WhoamiRequest)
deriving DecidableEq, Repr

/-- Rust `LdapHandler<Backend>`: the per-connection session. The backend trait
(`crate::domain::handler::BackendHandler`) is abstract; the only capability
this module uses is `bind(BindRequest) -> Result<(), _>`, modelled as a
function into `Except ε Unit` for an arbitrary error type `ε`. -/
structure LdapHandler (ε : Type) where
  dn : String
  backend_handler : BindRequest → Except ε Unit

/-- Rust `LdapHandler::do_bind`: calls the backend; on `Ok(())` sets `self.dn` and
returns `gen_success`, on `Err(_)` leaves state unchanged and returns
`gen_invalid_cred`.  `&mut self` becomes state passing. -/
def LdapHandler.do_bind {ε : Type} (self : LdapHandler ε)
    (sbr : SimpleBindRequest) : LdapHandler ε × LdapMsg :=
  match self.backend_handler { name := sbr.dn, password := sbr.pw } with
  | .ok () => ({ self with dn := sbr.dn }, sbr.gen_success)
  | .error _ => (self, sbr.gen_invalid_cred)

/-- The two hard-coded entries `do_search` returns, in source order. -/
def searchEntries : List LdapSearchResultEntry :=
  [ { dn := "cn=hello,dc=example,dc=com",
      attributes :=
        [ { atype := "objectClass", vals := ["cursed"] },
          { atype := "cn", vals := ["hello"] } ] },
    { dn := "cn=world,dc=example,dc=com",
      attributes :=
        [ { atype := "objectClass", vals := ["cursed"] },
          { atype := "cn", vals := ["world"] } ] } ]

/-- Rust `LdapHandler::do_search`: ignores the request content and the backend and
returns the two fixed result entries followed by `gen_success`. `&mut self`
is taken but never written. -/
def LdapHandler.do_search {ε : Type} (self : LdapHandler ε)
    (lsr : SearchRequest) : LdapHandler ε × List LdapMsg :=
  (self,
   [ lsr.gen_result_entry
       { dn := "cn=hello,dc=example,dc=com",
         attributes :=
           [ { atype := "objectClass", vals := ["cursed"] },
             { atype := "cn", vals := ["hello"] } ] },
     lsr.gen_result_entry
       { dn := "cn=world,dc=example,dc=com",
         attributes :=
           [ { atype := "objectClass", vals := ["cursed"] },
             { atype := "cn", vals := ["world"] } ] },
     lsr.gen_success ])

/-- Rust `LdapHandler::do_whoami`: `wr.gen_success(format!("dn: {}", self.dn))`. -/
def LdapHandler.do_whoami {ε : Type} (self : LdapHandler ε)
    (wr : WhoamiRequest) : LdapHandler ε × LdapMsg :=
  (self, wr.gen_success ("dn: " ++ self.dn))

/-- Rust `LdapHandler::handle_ldap_message`: total dispatch over `ServerOps`;
`Unbind` returns `None` (close sentinel, no response per rfc4511), the rest
return `Some` of the responses. -/
def LdapHandler.handle_ldap_message {ε : Type} (self : LdapHandler ε)
    (server_op : ServerOps) : LdapHandler ε × Option (List LdapMsg) :=
  match server_op with
  | .SimpleBind sbr =>
      let (self1, m) := self.do_bind sbr
      (self1, some [m])
  | .Search sr =>
      let (self1, ms) := self.do_search sr
      (self1, some ms)
  | .Unbind _ => (self, none)
  | .Whoami wr =>
      let (self1, m) := self.do_whoami wr
      (self1, some [m])

/-! ### Connection loop (`handle_incoming_message`, `build_ldap_server`)

The `FramedWrite<WriteHalf, LdapCodec>` sink is external; it is modelled at
its interface boundary: its observable state is the ordered list of messages
handed to `send` plus a flush counter, and an oracle decides which send/flush
attempts fail (mirroring arbitrary transport behaviour). -/

/-- Rust `std::io::Error` as it reaches this module: its payload is discarded
(`.map_err(|_e| ())`), so it is modelled as `Unit`. -/
abbrev IoError : Type := Unit

/-- Failure oracle for the external transport: whether the n-th `send` call
and the n-th `flush` call on this connection fail. -/
structure WriteOracle where
  sendFails : Nat → Bool
  flushFails : Nat → Bool

/-- Observable state of the outbound `FramedWrite`: every message handed to
`send`, in call order, and the number of `flush` calls so far. -/
structure FramedWriteState where
  attempts : List LdapMsg
  flushCount : Nat
deriving DecidableEq, Repr

/-- Rust `resp.send(m).await`: records the message and fails iff the oracle fails
this attempt. -/
def framedSend (o : WriteOracle) (w : FramedWriteState) (m : LdapMsg) :
    FramedWriteState × Except Unit Unit :=
  ({ w with attempts := w.attempts ++ [m] },
   if o.sendFails w.attempts.length then .error () else .ok ())

/-- Rust `resp.flush().await`: counts the flush and fails iff the oracle fails
this attempt. -/
def framedFlush (o : WriteOracle) (w : FramedWriteState) :
    FramedWriteState × Except Unit Unit :=
  ({ w with flushCount := w.flushCount + 1 },
   if o.flushFails w.flushCount then .error () else .ok ())

/-- The three `bail!` sites of `handle_incoming_message`. -/
inductive HandlerError where
  | internalServerError
  | sendError
  | flushError
deriving DecidableEq, Repr

/-- Rust `msg.map_err(|_e| ()).and_then(|msg| ServerOps::try_from(msg))`: the
codec's raw message type `ρ` and the library conversion `tryFrom`
(`ServerOps::try_from`, returning `Result<ServerOps, ()>`) are external
parameters. -/
def decodeServerOp {ρ : Type} (msg : Except IoError ρ)
    (tryFrom : ρ → Except Unit ServerOps) : Except Unit ServerOps :=
  match msg with
  | .error _ => .error ()
  | .ok m => tryFrom m

/-- The `for rmsg in result { ... resp.send(rmsg) ... }` loop: sends each
message in order, stopping at the first send failure. -/
def sendAllMsgs (o : WriteOracle) (w : FramedWriteState) :
    List LdapMsg → FramedWriteState × Except Unit Unit
  | [] => (w, .ok ())
  | m :: ms =>
    match framedSend o w m with
    | (w1, .error _) => (w1, .error ())
    | (w1, .ok ()) => sendAllMsgs o w1 ms

/-- Rust `handle_incoming_message`: decode; on failure send one disconnection
notice and flush (both best-effort, results discarded) and bail; on success
dispatch, send the responses in order, flush, and return `Ok(true)`
(continue) or `Ok(false)` (close sentinel seen). Returns
(writer state, session state, `Result<bool>`). -/
def handle_incoming_message {ρ ε : Type} (o : WriteOracle)
    (msg : Except IoError ρ) (tryFrom : ρ → Except Unit ServerOps)
    (resp : FramedWriteState) (session : LdapHandler ε) :
    FramedWriteState × LdapHandler ε × Except HandlerError Bool :=
  match decodeServerOp msg tryFrom with
  | .error _ =>
      let r1 := framedSend o resp
        (DisconnectionNotice.gen .other "Internal Server Error")
      let r2 := framedFlush o r1.1
      (r2.1, session, .error .internalServerError)
  | .ok server_op =>
      match session.handle_ldap_message server_op with
      | (session1, none) => (resp, session1, .ok false)
      | (session1, some result) =>
          match sendAllMsgs o resp result with
          | (resp1, .error _) => (resp1, session1, .error .sendError)
          | (resp1, .ok ()) =>
              match framedFlush o resp1 with
              | (resp2, .error _) => (resp2, session1, .error .flushError)
              | (resp2, .ok ()) => (resp2, session1, .ok true)

/-- The fresh session `build_ldap_server` creates per accepted connection:
`dn: "Unauthenticated".to_string()` plus the injected backend. -/
def initialSession {ε : Type} (backend_handler : BindRequest → Except ε Unit) :
    LdapHandler ε :=
  { dn := "Unauthenticated", backend_handler := backend_handler }

/-- The read loop of `build_ldap_server`:
`while let Some(msg) = requests.next().await { if !handle_incoming_message(..).await? { break } }`.
The incoming stream is the list of decode results the codec yields; `?`
propagates a handler error upward, a `false` result breaks gracefully. -/
def connectionLoop {ρ ε : Type} (o : WriteOracle)
    (tryFrom : ρ → Except Unit ServerOps) :
    List (Except IoError ρ) → FramedWriteState → LdapHandler ε →
    FramedWriteState × LdapHandler ε × Except HandlerError Unit
  | [], resp, session => (resp, session, .ok ())
  | m :: ms, resp, session =>
    match handle_incoming_message o m tryFrom resp session with
    | (resp1, session1, .error e) => (resp1, session1, .error e)
    | (resp1, session1, .ok false) => (resp1, session1, .ok ())
    | (resp1, session1, .ok true) => connectionLoop o tryFrom ms resp1 session1

/-! ### Trace model and concrete instances used by witnesses -/

/-- Iterated dispatch: the session state after handling a list of operations
in order (responses discarded). -/
def runOps {ε : Type} (s : LdapHandler ε) : List ServerOps → LdapHandler ε
  | [] => s
  | op :: ops => runOps (s.handle_ldap_message op).1 ops

/-- Formalisation of the spec phrase "the identity of the most recent
successful bind (or the initial default if none)", relative to a fixed
backend `b`: starting from identity `d`, only binds the backend accepts
update the expected identity. -/
def specLastSuccessfulBindDn {ε : Type} (b : BindRequest → Except ε Unit)
    (d : String) : List ServerOps → String
  | [] => d
  | .SimpleBind sbr :: ops =>
      specLastSuccessfulBindDn b
        (match b { name := sbr.dn, password := sbr.pw } with
         | .ok () => sbr.dn
         | .error _ => d) ops
  | .Search _ :: ops => specLastSuccessfulBindDn b d ops
  | .Unbind _ :: ops => specLastSuccessfulBindDn b d ops
  | .Whoami _ :: ops => specLastSuccessfulBindDn b d ops

/-- A concrete backend for witnesses: accepts any identity whose credential
is `"secret"`. -/
def demoBackend : BindRequest → Except Unit Unit :=
  fun r => if r.password = "secret" then .ok () else .error ()

/-- A fresh session over the demo backend. -/
def demoSession : LdapHandler Unit := initialSession demoBackend

def demoBindOk : SimpleBindRequest :=
  { msgid := 1, dn := "cn=admin,dc=example,dc=com", pw := "secret" }

def demoBindBad : SimpleBindRequest :=
  { msgid := 2, dn := "cn=admin,dc=example,dc=com", pw := "wrong" }

def demoSearch : SearchRequest :=
  { msgid := 3, base := "dc=example,dc=com", filter := "(objectClass=x)" }

def demoWhoami : WhoamiRequest := { msgid := 4 }

def demoUnbind : UnbindRequest := { msgid := 5 }

/-- A transport on which every send and flush succeeds. -/
def noFailOracle : WriteOracle :=
  { sendFails := fun _ => false, flushFails := fun _ => false }

/-- A fresh outbound writer. -/
def emptyWriter : FramedWriteState := { attempts := [], flushCount := 0 }

/-! ### Helper lemmas -/

/-- Dispatch never replaces the backend. -/
theorem handle_ldap_message_backend {ε : Type} (s : LdapHandler ε)
    (op : ServerOps) :
    (s.handle_ldap_message op).1.backend_handler = s.backend_handler := by
  cases op with
  | SimpleBind sbr =>
      simp only [LdapHandler.handle_ldap_message, LdapHandler.do_bind]
      cases h : s.backend_handler { name := sbr.dn, password := sbr.pw } with
      | ok u => cases u; simp [h]
      | error e => simp [h]
  | Search sr => rfl
  | Unbind ur => rfl
  | Whoami wr => rfl

/-- The session identity after a trace of operations is the identity of the
most recent accepted bind (or the starting identity). -/
theorem runOps_dn {ε : Type} (ops : List ServerOps) :
    ∀ s : LdapHandler ε,
    (runOps s ops).dn = specLastSuccessfulBindDn s.backend_handler s.dn ops := by
  induction ops with
  | nil => intro s; rfl
  | cons op ops ih =>
    intro s
    cases op with
    | SimpleBind sbr =>
        simp only [runOps, specLastSuccessfulBindDn,
          LdapHandler.handle_ldap_message, LdapHandler.do_bind]
        cases h : s.backend_handler { name := sbr.dn, password := sbr.pw } with
        | ok u => cases u; simp [h, ih]
        | error e => simp [h, ih]
    | Search sr => simp only [runOps, specLastSuccessfulBindDn]; exact ih _
    | Unbind ur => simp only [runOps, specLastSuccessfulBindDn]; exact ih _
    | Whoami wr => simp only [runOps, specLastSuccessfulBindDn]; exact ih _

/-- When none of the involved send attempts fails, the send loop delivers
every message in order and reports success. -/
theorem sendAllMsgs_ok (o : WriteOracle) (ms : List LdapMsg) :
    ∀ w : FramedWriteState,
    (∀ i, i < ms.length → o.sendFails (w.attempts.length + i) = false) →
    sendAllMsgs o w ms = ({ w with attempts := w.attempts ++ ms }, .ok ()) := by
  induction ms with
  | nil => intro w _; simp [sendAllMsgs]
  | cons m ms ih =>
    intro w h
    have h0 : o.sendFails w.attempts.length = false := by
      simpa using h 0 (Nat.succ_pos _)
    have hlen : (w.attempts ++ [m]).length = w.attempts.length + 1 := by simp
    have hrest : ∀ i, i < ms.length →
        o.sendFails ((w.attempts ++ [m]).length + i) = false := by
      intro i hi
      rw [hlen, Nat.add_assoc, Nat.add_comm 1 i]
      exact h (i + 1) (Nat.succ_lt_succ hi)
    simp [sendAllMsgs, framedSend, h0]
    rw [ih ⟨w.attempts ++ [m], w.flushCount⟩ hrest]
    simp

/-- The send loop never flushes. -/
theorem sendAllMsgs_flushCount (o : WriteOracle) (ms : List LdapMsg) :
    ∀ w : FramedWriteState,
    (sendAllMsgs o w ms).1.flushCount = w.flushCount := by
  induction ms with
  | nil => intro w; rfl
  | cons m ms ih =>
    intro w
    cases h : o.sendFails w.attempts.length with
    | true => simp [sendAllMsgs, framedSend, h]
    | false =>
        simp [sendAllMsgs, framedSend, h]
        exact ih ⟨w.attempts ++ [m], w.flushCount⟩

/-- If some involved send attempt fails, the send loop reports failure. -/
theorem sendAllMsgs_fail (o : WriteOracle) (ms : List LdapMsg) :
    ∀ w : FramedWriteState,
    (∃ i, i < ms.length ∧ o.sendFails (w.attempts.length + i) = true) →
    (sendAllMsgs o w ms).2 = .error () := by
  induction ms with
  | nil => intro w ⟨i, hi, _⟩; exact absurd hi (Nat.not_lt_zero i)
  | cons m ms ih =>
    intro w ⟨i, hi, hf⟩
    cases h0 : o.sendFails w.attempts.length with
    | true => simp [sendAllMsgs, framedSend, h0]
    | false =>
      have hlen : (w.attempts ++ [m]).length = w.attempts.length + 1 := by simp
      have hx : ∃ k, k < ms.length ∧
          o.sendFails ((w.attempts ++ [m]).length + k) = true := by
        cases i with
        | zero => rw [Nat.add_zero, h0] at hf; exact absurd hf (by simp)
        | succ j =>
          refine ⟨j, Nat.lt_of_succ_lt_succ hi, ?_⟩
          rw [hlen, Nat.add_assoc, Nat.add_comm 1 j]
          exact hf
      simp [sendAllMsgs, framedSend, h0]
      exact ih ⟨w.attempts ++ [m], w.flushCount⟩ hx

/-! ### Claim theorems -/

/-- C1: dispatching a Bind whose (identity, credential) pair the backend
accepts sets the session identity to the bound identity and returns exactly
one success Response; for a rejected pair the session is unchanged and
exactly one invalid-credentials Response is returned. -/
theorem C1_bind_dispatch {ε : Type} (s : LdapHandler ε)
    (sbr : SimpleBindRequest) :
    (s.backend_handler { name := sbr.dn, password := sbr.pw } = .ok () →
      (s.handle_ldap_message (.SimpleBind sbr)).1.dn = sbr.dn ∧
      (s.handle_ldap_message (.SimpleBind sbr)).2 = some [sbr.gen_success]) ∧
    (∀ e, s.backend_handler { name := sbr.dn, password := sbr.pw } = .error e →
      (s.handle_ldap_message (.SimpleBind sbr)).1 = s ∧
      (s.handle_ldap_message (.SimpleBind sbr)).2
        = some [sbr.gen_invalid_cred]) := by
  constructor
  · intro h
    simp [LdapHandler.handle_ldap_message, LdapHandler.do_bind, h]
  · intro e h
    simp [LdapHandler.handle_ldap_message, LdapHandler.do_bind, h]

/-- Witness for C1 at a concrete accepted pair and a concrete rejected
pair. -/
theorem C1_bind_dispatch_witness :
    ((demoSession.handle_ldap_message (.SimpleBind demoBindOk)).1.dn
        = "cn=admin,dc=example,dc=com" ∧
      (demoSession.handle_ldap_message (.SimpleBind demoBindOk)).2
        = some [demoBindOk.gen_success]) ∧
    ((demoSession.handle_ldap_message (.SimpleBind demoBindBad)).1
        = demoSession ∧
      (demoSession.handle_ldap_message (.SimpleBind demoBindBad)).2
        = some [demoBindBad.gen_invalid_cred]) :=
  ⟨(C1_bind_dispatch demoSession demoBindOk).1 rfl,
   (C1_bind_dispatch demoSession demoBindBad).2 () rfl⟩

/-- C2: the session identity always equals the identity of the most recent
successful bind (or the initial value with none); dispatching Search,
Whoami, or Unbind, and a failed Bind, never mutate the session. -/
theorem C2_identity_invariant {ε : Type} (s : LdapHandler ε)
    (ops : List ServerOps) (sr : SearchRequest) (wr : WhoamiRequest)
    (ur : UnbindRequest) (sbr : SimpleBindRequest) :
    (runOps s ops).dn = specLastSuccessfulBindDn s.backend_handler s.dn ops ∧
    (s.handle_ldap_message (.Search sr)).1 = s ∧
    (s.handle_ldap_message (.Whoami wr)).1 = s ∧
    (s.handle_ldap_message (.Unbind ur)).1 = s ∧
    (∀ e, s.backend_handler { name := sbr.dn, password := sbr.pw } = .error e →
      (s.handle_ldap_message (.SimpleBind sbr)).1 = s) := by
  refine ⟨runOps_dn ops s, rfl, rfl, rfl, ?_⟩
  intro e h
  simp [LdapHandler.handle_ldap_message, LdapHandler.do_bind, h]

/-- Witness for C2 on a concrete trace (successful bind, then search, then
whoami) and a concrete failed bind. -/
theorem C2_identity_invariant_witness :
    (runOps demoSession
        [.SimpleBind demoBindOk, .Search demoSearch, .Whoami demoWhoami]).dn
      = specLastSuccessfulBindDn demoSession.backend_handler "Unauthenticated"
          [.SimpleBind demoBindOk, .Search demoSearch, .Whoami demoWhoami] ∧
    (demoSession.handle_ldap_message (.SimpleBind demoBindBad)).1
      = demoSession :=
  ⟨(C2_identity_invariant demoSession
      [.SimpleBind demoBindOk, .Search demoSearch, .Whoami demoWhoami]
      demoSearch demoWhoami demoUnbind demoBindBad).1,
   (C2_identity_invariant demoSession
      [.SimpleBind demoBindOk, .Search demoSearch, .Whoami demoWhoami]
      demoSearch demoWhoami demoUnbind demoBindBad).2.2.2.2 () rfl⟩

/-- C3: Whoami returns exactly one Response carrying `"dn: <identity>"`;
after a successful bind to `D` it carries `"dn: D"`, and on the fresh
session created by `build_ldap_server` it carries `"dn: Unauthenticated"`. -/
theorem C3_whoami {ε : Type} (s : LdapHandler ε) (wr : WhoamiRequest)
    (sbr : SimpleBindRequest) (b : BindRequest → Except ε Unit) :
    (s.handle_ldap_message (.Whoami wr)).2
        = some [wr.gen_success ("dn: " ++ s.dn)] ∧
    (s.backend_handler { name := sbr.dn, password := sbr.pw } = .ok () →
      ((s.handle_ldap_message (.SimpleBind sbr)).1.handle_ldap_message
          (.Whoami wr)).2 = some [wr.gen_success ("dn: " ++ sbr.dn)]) ∧
    ((initialSession b).handle_ldap_message (.Whoami wr)).2
        = some [wr.gen_success "dn: Unauthenticated"] := by
  refine ⟨rfl, ?_, rfl⟩
  intro h
  simp [LdapHandler.handle_ldap_message, LdapHandler.do_bind,
    LdapHandler.do_whoami, h]

/-- Witness for C3: whoami on the fresh demo session and after the concrete
successful bind. -/
theorem C3_whoami_witness :
    (demoSession.handle_ldap_message (.Whoami demoWhoami)).2
        = some [demoWhoami.gen_success ("dn: " ++ demoSession.dn)] ∧
    ((demoSession.handle_ldap_message (.SimpleBind demoBindOk)).1.handle_ldap_message
        (.Whoami demoWhoami)).2
      = some [demoWhoami.gen_success "dn: cn=admin,dc=example,dc=com"] ∧
    ((initialSession demoBackend).handle_ldap_message (.Whoami demoWhoami)).2
        = some [demoWhoami.gen_success "dn: Unauthenticated"] :=
  ⟨(C3_whoami demoSession demoWhoami demoBindOk demoBackend).1,
   (C3_whoami demoSession demoWhoami demoBindOk demoBackend).2.1 rfl,
   (C3_whoami demoSession demoWhoami demoBindOk demoBackend).2.2⟩

/-- C4: a Search yielding N entries produces exactly N+1 Responses: the N
entry Responses first, in source order, then exactly one terminal
search-done Response as the last element. -/
theorem C4_search_shape {ε : Type} (s : LdapHandler ε) (lsr : SearchRequest) :
    (s.handle_ldap_message (.Search lsr)).2
        = some (searchEntries.map lsr.gen_result_entry ++ [lsr.gen_success]) ∧
    (searchEntries.map lsr.gen_result_entry ++ [lsr.gen_success]).length
        = searchEntries.length + 1 ∧
    (searchEntries.map lsr.gen_result_entry ++ [lsr.gen_success]).getLast?
        = some lsr.gen_success ∧
    (searchEntries.map lsr.gen_result_entry
        ++ [lsr.gen_success]).take searchEntries.length
        = searchEntries.map lsr.gen_result_entry := by
  refine ⟨rfl, by simp, by simp, ?_⟩
  have hlen : searchEntries.length
      = (searchEntries.map lsr.gen_result_entry).length := by simp
  rw [List.take_append_of_le_length (by simp), hlen, List.take_length]

/-- C5: dispatching Unbind returns the close sentinel with no Response,
and the connection loop treats it as a graceful stop, not an error. -/
theorem C5_unbind {ρ ε : Type} (s : LdapHandler ε) (ur : UnbindRequest)
    (o : WriteOracle) (tryFrom : ρ → Except Unit ServerOps)
    (resp : FramedWriteState) (m : ρ) (ms : List (Except IoError ρ))
    (hdec : tryFrom m = .ok (.Unbind ur)) :
    s.handle_ldap_message (.Unbind ur) = (s, none) ∧
    handle_incoming_message o (.ok m) tryFrom resp s = (resp, s, .ok false) ∧
    connectionLoop o tryFrom (.ok m :: ms) resp s = (resp, s, .ok ()) := by
  have h1 : handle_incoming_message o (.ok m) tryFrom resp s
      = (resp, s, .ok false) := by
    simp [handle_incoming_message, decodeServerOp, hdec,
      LdapHandler.handle_ldap_message]
  refine ⟨rfl, h1, ?_⟩
  simp [connectionLoop, h1]

/-- Witness for C5: a concrete decoder yielding Unbind, on a non-empty
remaining stream. -/
theorem C5_unbind_witness :
    demoSession.handle_ldap_message (.Unbind demoUnbind)
        = (demoSession, none) ∧
    handle_incoming_message noFailOracle (.ok ())
        (fun _ : Unit => .ok (.Unbind demoUnbind)) emptyWriter demoSession
      = (emptyWriter, demoSession, .ok false) ∧
    connectionLoop noFailOracle (fun _ : Unit => .ok (.Unbind demoUnbind))
        [.ok (), .ok ()] emptyWriter demoSession
      = (emptyWriter, demoSession, .ok ()) :=
  C5_unbind demoSession demoUnbind noFailOracle
    (fun _ : Unit => .ok (.Unbind demoUnbind)) emptyWriter () [.ok ()] rfl

/-- C9: Search always returns, for any session state and any request, the
two fixed entries (hello then world, each with objectClass "cursed" and its
cn) followed by one success marker; the state, and hence the backend, is
untouched. -/
theorem C9_search_fixed {ε : Type} (s : LdapHandler ε) (sr : SearchRequest) :
    s.handle_ldap_message (.Search sr)
      = (s, some
          [ .searchResultEntry sr.msgid
              { dn := "cn=hello,dc=example,dc=com",
                attributes :=
                  [ { atype := "objectClass", vals := ["cursed"] },
                    { atype := "cn", vals := ["hello"] } ] },
            .searchResultEntry sr.msgid
              { dn := "cn=world,dc=example,dc=com",
                attributes :=
                  [ { atype := "objectClass", vals := ["cursed"] },
                    { atype := "cn", vals := ["world"] } ] },
            .searchResultDone sr.msgid .success ]) := rfl

/-- C6: dispatch is total over the closed operation set and never fails:
the close sentinel arises exactly for Unbind, and every backend failure is
converted into a protocol-level invalid-credentials Response. -/
theorem C6_total_dispatch {ε : Type} (s : LdapHandler ε) (op : ServerOps) :
    ((s.handle_ldap_message op).2 = none ↔ ∃ ur, op = .Unbind ur) ∧
    (∀ sbr e,
      s.backend_handler { name := sbr.dn, password := sbr.pw } = .error e →
      (s.handle_ldap_message (.SimpleBind sbr)).2
        = some [sbr.gen_invalid_cred]) := by
  constructor
  · cases op with
    | SimpleBind sbr =>
        simp only [LdapHandler.handle_ldap_message, LdapHandler.do_bind]
        cases h : s.backend_handler { name := sbr.dn, password := sbr.pw } with
        | ok u => cases u; simp [h]
        | error e => simp [h]
    | Search sr => simp [LdapHandler.handle_ldap_message, LdapHandler.do_search]
    | Unbind ur => exact ⟨fun _ => ⟨ur, rfl⟩, fun _ => rfl⟩
    | Whoami wr => simp [LdapHandler.handle_ldap_message, LdapHandler.do_whoami]
  · intro sbr e h
    simp [LdapHandler.handle_ldap_message, LdapHandler.do_bind, h]

/-- Witness for C6: the sentinel criterion at a concrete Unbind, and the
conversion of a concrete rejected bind. -/
theorem C6_total_dispatch_witness :
    ((demoSession.handle_ldap_message (.Unbind demoUnbind)).2 = none ↔
      ∃ ur, ServerOps.Unbind demoUnbind = .Unbind ur) ∧
    (demoSession.handle_ldap_message (.SimpleBind demoBindBad)).2
      = some [demoBindBad.gen_invalid_cred] :=
  ⟨(C6_total_dispatch demoSession (.Unbind demoUnbind)).1,
   (C6_total_dispatch demoSession (.Unbind demoUnbind)).2 demoBindBad () rfl⟩

/-- C7: on a decode failure the loop body sends exactly one disconnection
notice and one flush (both best-effort, their outcomes discarded), never
dispatches, leaves the session untouched, and reports a connection-fatal
error upward, which stops the loop. -/
theorem C7_decode_failure {ρ ε : Type} (o : WriteOracle)
    (msg : Except IoError ρ) (tryFrom : ρ → Except Unit ServerOps)
    (resp : FramedWriteState) (s : LdapHandler ε)
    (ms : List (Except IoError ρ))
    (hdec : decodeServerOp msg tryFrom = .error ()) :
    handle_incoming_message o msg tryFrom resp s
      = ({ attempts := resp.attempts
             ++ [DisconnectionNotice.gen .other "Internal Server Error"],
           flushCount := resp.flushCount + 1 },
         s, .error .internalServerError) ∧
    connectionLoop o tryFrom (msg :: ms) resp s
      = ({ attempts := resp.attempts
             ++ [DisconnectionNotice.gen .other "Internal Server Error"],
           flushCount := resp.flushCount + 1 },
         s, .error .internalServerError) := by
  have h1 : handle_incoming_message o msg tryFrom resp s
      = ({ attempts := resp.attempts
             ++ [DisconnectionNotice.gen .other "Internal Server Error"],
           flushCount := resp.flushCount + 1 },
         s, .error .internalServerError) := by
    simp [handle_incoming_message, hdec, framedSend, framedFlush]
  exact ⟨h1, by simp [connectionLoop, h1]⟩

/-- Witness for C7: a transport-level decode error as the first message. -/
theorem C7_decode_failure_witness :
    handle_incoming_message noFailOracle (.error ())
        (fun _ : Unit => .ok (.Whoami demoWhoami)) emptyWriter demoSession
      = ({ attempts := [DisconnectionNotice.gen .other "Internal Server Error"],
           flushCount := 1 },
         demoSession, .error .internalServerError) ∧
    connectionLoop noFailOracle (fun _ : Unit => .ok (.Whoami demoWhoami))
        [.error (), .ok ()] emptyWriter demoSession
      = ({ attempts := [DisconnectionNotice.gen .other "Internal Server Error"],
           flushCount := 1 },
         demoSession, .error .internalServerError) :=
  C7_decode_failure noFailOracle (.error ())
    (fun _ : Unit => .ok (.Whoami demoWhoami)) emptyWriter demoSession
    [.ok ()] rfl

/-- C8: after a successful decode and a dispatch yielding a Response list,
the loop body sends each Response in dispatch order and then flushes; it is
connection-fatal exactly when a send or the flush fails, and otherwise
signals the loop to continue; either way the session advances to the
dispatched state. -/
theorem C8_send_flush {ρ ε : Type} (o : WriteOracle)
    (msg : Except IoError ρ) (tryFrom : ρ → Except Unit ServerOps)
    (resp : FramedWriteState) (s : LdapHandler ε)
    (op : ServerOps) (result : List LdapMsg)
    (hdec : decodeServerOp msg tryFrom = .ok op)
    (hres : (s.handle_ldap_message op).2 = some result) :
    ((∀ i, i < result.length →
        o.sendFails (resp.attempts.length + i) = false) →
      (handle_incoming_message o msg tryFrom resp s).1
        = { attempts := resp.attempts ++ result,
            flushCount := resp.flushCount + 1 } ∧
      (handle_incoming_message o msg tryFrom resp s).2.2
        = (if o.flushFails resp.flushCount then .error .flushError
           else .ok true)) ∧
    ((∃ i, i < result.length ∧
        o.sendFails (resp.attempts.length + i) = true) →
      (handle_incoming_message o msg tryFrom resp s).2.2
        = .error .sendError) ∧
    (handle_incoming_message o msg tryFrom resp s).2.1
      = (s.handle_ldap_message op).1 := by
  have hpair : s.handle_ldap_message op
      = ((s.handle_ldap_message op).1, some result) := by
    rw [← hres]
  have hunfold : handle_incoming_message o msg tryFrom resp s
      = (match sendAllMsgs o resp result with
         | (resp1, .error _) =>
             (resp1, (s.handle_ldap_message op).1, .error .sendError)
         | (resp1, .ok ()) =>
             match framedFlush o resp1 with
             | (resp2, .error _) =>
                 (resp2, (s.handle_ldap_message op).1, .error .flushError)
             | (resp2, .ok ()) =>
                 (resp2, (s.handle_ldap_message op).1, .ok true)) := by
    simp only [handle_incoming_message, hdec]
    rw [hpair]
  refine ⟨?_, ?_, ?_⟩
  · intro h
    rw [hunfold, sendAllMsgs_ok o result resp h]
    cases hf : o.flushFails resp.flushCount with
    | true => simp [framedFlush, hf]
    | false => simp [framedFlush, hf]
  · intro hex
    have hfail := sendAllMsgs_fail o result resp hex
    have hp2 : sendAllMsgs o resp result
        = ((sendAllMsgs o resp result).1, Except.error ()) := by
      rw [← hfail]
    rw [hunfold, hp2]
  · rw [hunfold]
    split
    · rfl
    · split <;> rfl

/-- Witness for C8: a whoami cycle on a fully reliable transport. -/
theorem C8_send_flush_witness :
    (handle_incoming_message noFailOracle (.ok ())
        (fun _ : Unit => .ok (.Whoami demoWhoami)) emptyWriter demoSession).1
      = { attempts := [demoWhoami.gen_success "dn: Unauthenticated"],
          flushCount := 1 } ∧
    (handle_incoming_message noFailOracle (.ok ())
        (fun _ : Unit => .ok (.Whoami demoWhoami)) emptyWriter demoSession).2.2
      = .ok true :=
  ⟨((C8_send_flush noFailOracle (.ok ())
      (fun _ : Unit => .ok (.Whoami demoWhoami)) emptyWriter demoSession
      (.Whoami demoWhoami) [demoWhoami.gen_success "dn: Unauthenticated"]
      rfl rfl).1 (fun _ _ => rfl)).1,
   ((C8_send_flush noFailOracle (.ok ())
      (fun _ : Unit => .ok (.Whoami demoWhoami)) emptyWriter demoSession
      (.Whoami demoWhoami) [demoWhoami.gen_success "dn: Unauthenticated"]
      rfl rfl).1 (fun _ _ => rfl)).2⟩

/-- The identity `"Unauthenticated"` offered as a bind dn (for C10). -/
def unauthBind : SimpleBindRequest :=
  { msgid := 6, dn := "Unauthenticated", pw := "secret" }

/-- The empty identity offered as a bind dn (for C10). -/
def emptyDnBind : SimpleBindRequest :=
  { msgid := 7, dn := "", pw := "secret" }

/-- C10: if the backend accepts a bind whose identity is the literal
`"Unauthenticated"` (resp. the empty string), the session identity becomes
that string, so Whoami answers exactly as on a never-bound fresh session
(resp. with `"dn: "`). -/
theorem C10_unauth_bind {ε : Type} (s : LdapHandler ε)
    (sbr : SimpleBindRequest) (wr : WhoamiRequest)
    (hacc : s.backend_handler { name := sbr.dn, password := sbr.pw }
      = .ok ()) :
    (s.handle_ldap_message (.SimpleBind sbr)).1.dn = sbr.dn ∧
    (sbr.dn = "Unauthenticated" →
      ((s.handle_ldap_message (.SimpleBind sbr)).1.handle_ldap_message
          (.Whoami wr)).2
        = ((initialSession s.backend_handler).handle_ldap_message
            (.Whoami wr)).2 ∧
      ((s.handle_ldap_message (.SimpleBind sbr)).1.handle_ldap_message
          (.Whoami wr)).2 = some [wr.gen_success "dn: Unauthenticated"]) ∧
    (sbr.dn = "" →
      ((s.handle_ldap_message (.SimpleBind sbr)).1.handle_ldap_message
          (.Whoami wr)).2 = some [wr.gen_success "dn: "]) := by
  have hdn : (s.handle_ldap_message (.SimpleBind sbr)).1.dn = sbr.dn := by
    simp [LdapHandler.handle_ldap_message, LdapHandler.do_bind, hacc]
  refine ⟨hdn, ?_, ?_⟩
  · intro h
    constructor
    · show some [wr.gen_success
          ("dn: " ++ (s.handle_ldap_message (.SimpleBind sbr)).1.dn)]
        = some [wr.gen_success ("dn: " ++ "Unauthenticated")]
      rw [hdn, h]
    · show some [wr.gen_success
          ("dn: " ++ (s.handle_ldap_message (.SimpleBind sbr)).1.dn)]
        = some [wr.gen_success "dn: Unauthenticated"]
      rw [hdn, h]
      rfl
  · intro h
    show some [wr.gen_success
        ("dn: " ++ (s.handle_ldap_message (.SimpleBind sbr)).1.dn)]
      = some [wr.gen_success "dn: "]
    rw [hdn, h]
    rfl

/-- Witness for C10: the demo backend accepts both the literal
`"Unauthenticated"` dn and the empty dn. -/
theorem C10_unauth_bind_witness :
    ((demoSession.handle_ldap_message
        (.SimpleBind unauthBind)).1.handle_ldap_message (.Whoami demoWhoami)).2
      = ((initialSession demoSession.backend_handler).handle_ldap_message
          (.Whoami demoWhoami)).2 ∧
    ((demoSession.handle_ldap_message
        (.SimpleBind emptyDnBind)).1.handle_ldap_message (.Whoami demoWhoami)).2
      = some [demoWhoami.gen_success "dn: "] :=
  ⟨((C10_unauth_bind demoSession unauthBind demoWhoami rfl).2.1 rfl).1,
   (C10_unauth_bind demoSession emptyDnBind demoWhoami rfl).2.2 rfl⟩

end LldapServer
